import Mathlib

/-!
# Verification of the WorkOutApi athlete CRUD service

Shallow embedding of `WorkOutApi/atleta/controller.py` (and the schema base in
`WorkOutApi/contrib/schemas.py`) of the Python-FastAPI repository.

Conventions of the embedding:
* UUIDs and timestamps are modelled as `Nat` (the code only generates and
  stores them; no arithmetic is performed on them).
* Float-valued body metrics (`peso`, `altura`) are modelled as `Rat`; the code
  only stores and copies them, never computes with them.
* The database session is modelled as an explicit `DB` state; every handler
  returns `Except HTTPException result`; an `.error` outcome corresponds to the
  transaction being rolled back, so the state is unchanged (the `*_db` wrappers
  make that explicit).
* SQLAlchemy's `ilike` with the pattern `f"%{nome}%"` is modelled by the
  `likeMatch` pattern matcher over characters, with `%` (any substring) and `_`
  (any single character) wildcards and per-character case-insensitive
  comparison; the SQL `ESCAPE` character is not modelled.
-/

/-- Reference row of the `categorias` table (`CategoriaModel` in the source:
a numeric primary key `pk_id` and a unique `nome`). -/
structure CategoriaModel where
  pk_id : Nat
  nome : String
deriving DecidableEq, Repr

/-- Reference row of the `centros_treinamento` table (`CentroTreinamentoModel`
in the source: a numeric primary key `pk_id` and a unique `nome`). -/
structure CentroTreinamentoModel where
  pk_id : Nat
  nome : String
deriving DecidableEq, Repr

/-- Modelled from the spec: the nested category object of the request schema
(the file `WorkOutApi/atleta/schemas.py` is not in the sources); per the spec a
category is "identified by a unique name", and the controller reads
`atleta_in.categoria.nome`. -/
structure CategoriaIn where
  nome : String
deriving DecidableEq, Repr

/-- Modelled from the spec: the nested training-center object of the request
schema (the file `WorkOutApi/atleta/schemas.py` is not in the sources); the
controller reads `atleta_in.centro_treinamento.nome`. -/
structure CentroTreinamentoIn where
  nome : String
deriving DecidableEq, Repr

/-- Modelled from the spec: the request schema `AtletaIn`
(`WorkOutApi/atleta/schemas.py` is not in the sources).  Per the spec the input
carries name, cpf, weight, height, sex and the two nested reference objects;
field names follow the controller's usage (`atleta_in.cpf`,
`atleta_in.categoria`, `atleta_in.centro_treinamento`) and the repository's
Portuguese naming. -/
structure AtletaIn where
  nome : String
  cpf : String
  peso : Rat
  altura : Rat
  sexo : String
  categoria : CategoriaIn
  centro_treinamento : CentroTreinamentoIn
deriving DecidableEq, Repr

/-- The response schema `AtletaOut`.  The `id` and `creat_at` fields come from
`OutMixin` in `WorkOutApi/contrib/schemas.py` (note the source spells the
timestamp field `creat_at`); the remaining fields mirror `AtletaIn`, as used by
`AtletaOut(id=uuid4(), creat_at=datetime.now(), **atleta_in.model_dump())` in
the controller. -/
structure AtletaOut where
  id : Nat
  creat_at : Nat
  nome : String
  cpf : String
  peso : Rat
  altura : Rat
  sexo : String
  categoria : CategoriaIn
  centro_treinamento : CentroTreinamentoIn
deriving DecidableEq, Repr

/-- The category attribute of a stored athlete row.  `fk pk_id` is the normal
state: the foreign-key column `categoria_id` referencing a `CategoriaModel` by
primary key (the controller sets `atleta_model.categoria_id =
categoria.pk_id`).  `raw v` models a value assigned directly onto the ORM
relationship attribute by `setattr` (as the update handler's loop can do),
bypassing foreign-key resolution. -/
inductive CategoriaAttr where
  | fk (pk_id : Nat)
  | raw (v : CategoriaIn)
deriving DecidableEq, Repr

/-- The training-center attribute of a stored athlete row; see
`CategoriaAttr`. -/
inductive CentroTreinamentoAttr where
  | fk (pk_id : Nat)
  | raw (v : CentroTreinamentoIn)
deriving DecidableEq, Repr

/-- A persisted athlete row (`AtletaModel`).  The model file is not in the
sources; the columns follow the spec's data model (id, created-at timestamp,
name, cpf, weight, height, sex, and the two foreign keys) and the controller's
construction `AtletaModel(**atleta_out.model_dump(exclude={"categoria",
"centro_treinamento"}))` followed by assigning `categoria_id` and
`centro_treinamento_id`. -/
structure AtletaModel where
  id : Nat
  creat_at : Nat
  nome : String
  cpf : String
  peso : Rat
  altura : Rat
  sexo : String
  categoria : CategoriaAttr
  centro_treinamento : CentroTreinamentoAttr
deriving DecidableEq, Repr

/-- The relational store: the three tables of the persisted layout. -/
structure DB where
  categorias : List CategoriaModel
  centros : List CentroTreinamentoModel
  atletas : List AtletaModel
deriving DecidableEq, Repr

/-- FastAPI's `HTTPException`: a status code and a human-readable detail. -/
structure HTTPException where
  status_code : Nat
  detail : String
deriving DecidableEq, Repr

/-- Resolve the category attribute of a row to the nested object returned in
responses.  Modelled from the spec: the ORM lazy relationship follows
`categoria_id` to the `categorias` table (the spec's "ORM-managed lazy
relationships (category/training-center accessed via foreign key)"); a
dangling foreign key (impossible for rows created through `post`) resolves to
an empty name.  A `raw` value assigned directly onto the attribute is returned
as-is. -/
def resolveCategoria (db : DB) : CategoriaAttr → CategoriaIn
  | .fk pk =>
    match db.categorias.find? (fun c => c.pk_id == pk) with
    | some c => ⟨c.nome⟩
    | none => ⟨""⟩
  | .raw v => v

/-- Resolve the training-center attribute of a row; see `resolveCategoria`. -/
def resolveCentro (db : DB) : CentroTreinamentoAttr → CentroTreinamentoIn
  | .fk pk =>
    match db.centros.find? (fun c => c.pk_id == pk) with
    | some c => ⟨c.nome⟩
    | none => ⟨""⟩
  | .raw v => v

/-- `AtletaOut.model_validate(atleta)`: build the response record from a
stored row (pydantic `from_attributes = True` in `BaseSchemas.Config`). -/
def AtletaOut.model_validate (db : DB) (a : AtletaModel) : AtletaOut :=
  { id := a.id
    creat_at := a.creat_at
    nome := a.nome
    cpf := a.cpf
    peso := a.peso
    altura := a.altura
    sexo := a.sexo
    categoria := resolveCategoria db a.categoria
    centro_treinamento := resolveCentro db a.centro_treinamento }

/-- `POST /atleta/` (`post` in the controller): look up the category by name,
then the training center by name, each failing with a 400 naming the missing
value; then insert the row.  The unique constraint is modelled from the spec:
`cpf` is "unique across all athletes (enforced by the store)", and the
controller maps the resulting `IntegrityError` ("duplicate key value violates
unique constraint") to a 303 naming the cpf.  On success the response echoes
the input's nested objects (`atleta_out` is built from `atleta_in` before the
insert). -/
def post (db : DB) (fresh_id now : Nat) (atleta_in : AtletaIn) :
    Except HTTPException (DB × AtletaOut) :=
  match db.categorias.find? (fun c => c.nome == atleta_in.categoria.nome) with
  | none =>
    .error { status_code := 400
             detail := "Categoria '" ++ atleta_in.categoria.nome ++ "' não encontrada" }
  | some categoria =>
    match db.centros.find? (fun c => c.nome == atleta_in.centro_treinamento.nome) with
    | none =>
      .error { status_code := 400
               detail := "Centro de Treinamento '" ++ atleta_in.centro_treinamento.nome
                           ++ "' não encontrado" }
    | some centro_treinamento =>
      let atleta_out : AtletaOut :=
        { id := fresh_id
          creat_at := now
          nome := atleta_in.nome
          cpf := atleta_in.cpf
          peso := atleta_in.peso
          altura := atleta_in.altura
          sexo := atleta_in.sexo
          categoria := atleta_in.categoria
          centro_treinamento := atleta_in.centro_treinamento }
      let atleta_model : AtletaModel :=
        { id := fresh_id
          creat_at := now
          nome := atleta_in.nome
          cpf := atleta_in.cpf
          peso := atleta_in.peso
          altura := atleta_in.altura
          sexo := atleta_in.sexo
          categoria := .fk categoria.pk_id
          centro_treinamento := .fk centro_treinamento.pk_id }
      if db.atletas.any (fun a => a.cpf == atleta_in.cpf) then
        .error { status_code := 303
                 detail := "Já existe um atleta cadastrado com o CPF: " ++ atleta_in.cpf }
      else
        .ok ({ db with atletas := db.atletas ++ [atleta_model] }, atleta_out)

/-- The store after a create request: committed on success, rolled back (hence
unchanged) on any failure path. -/
def post_db (db : DB) (fresh_id now : Nat) (atleta_in : AtletaIn) : DB :=
  match post db fresh_id now atleta_in with
  | .ok (db2, _) => db2
  | .error _ => db

/-- The SQL `LIKE`/`ILIKE` pattern matcher over characters, used to model
`AtletaModel.nome.ilike(f"%{nome}%")` in the list handler: `%` matches any
(possibly empty) substring, `_` matches any single character, and any other
pattern character matches case-insensitively (`ILIKE`); the SQL `ESCAPE`
character is not modelled. -/
def likeMatch : List Char → List Char → Bool
  | [], [] => true
  | [], _ :: _ => false
  | p :: ps, [] => if p = '%' then likeMatch ps [] else false
  | p :: ps, c :: t =>
    if p = '%' then likeMatch ps (c :: t) || likeMatch (p :: ps) t
    else if p = '_' then likeMatch ps t
    else (p.toLower == c.toLower) && likeMatch ps t
termination_by p s => p.length + s.length

/-- The pattern `f"%{nome}%"` built by the list handler. -/
def ilikePattern (nome : String) : List Char :=
  '%' :: nome.data ++ ['%']

/-- `GET /atleta/` (`query_all_atletas` in the controller): start from
`select(AtletaModel)` and add one filter per truthy query parameter (Python's
`if nome:` / `if cpf:` skip both `None` and the empty string); `nome` filters
with `ilike(f"%{nome}%")`, `cpf` with exact equality; the matching rows are
validated into response records. -/
def query_all_atletas (db : DB) (nome cpf : Option String) : List AtletaOut :=
  (db.atletas.filter (fun a =>
      (match nome with
       | some n => if n = "" then true else likeMatch (ilikePattern n) a.nome.data
       | none => true)
      &&
      (match cpf with
       | some c => if c = "" then true else a.cpf == c
       | none => true))).map (AtletaOut.model_validate db)

/-- `GET /atleta/{id}` (`query_atleta_by_id` in the controller): find the row
by id; 404 naming the id when absent. -/
def query_atleta_by_id (db : DB) (id : Nat) : Except HTTPException AtletaOut :=
  match db.atletas.find? (fun a => a.id == id) with
  | none =>
    .error { status_code := 404
             detail := "Atleta não encontrado com o ID: " ++ toString id }
  | some atleta => .ok (AtletaOut.model_validate db atleta)

/-- Modelled from the spec: the sparse update schema `AtletaUpdate`
(`WorkOutApi/atleta/schemas.py` is not in the sources).  Per the spec, "partial
updates may change any field except `id` and `created_at`", so every field of
`AtletaIn` appears here as optional; an omitted field is `none`
(pydantic's `exclude_unset`). -/
structure AtletaUpdate where
  nome : Option String := none
  cpf : Option String := none
  peso : Option Rat := none
  altura : Option Rat := none
  sexo : Option String := none
  categoria : Option CategoriaIn := none
  centro_treinamento : Option CentroTreinamentoIn := none
deriving DecidableEq, Repr

/-- The `setattr` loop of the update handler: each field present in
`atleta_up.model_dump(exclude_unset=True)` is assigned by name directly onto
the stored row; omitted fields are untouched.  A supplied nested
category/training-center object lands on the ORM relationship attribute as a
raw value — no foreign-key resolution is performed. -/
def applyUpdate (a : AtletaModel) (up : AtletaUpdate) : AtletaModel :=
  { a with
    nome := up.nome.getD a.nome
    cpf := up.cpf.getD a.cpf
    peso := up.peso.getD a.peso
    altura := up.altura.getD a.altura
    sexo := up.sexo.getD a.sexo
    categoria := match up.categoria with
      | some v => .raw v
      | none => a.categoria
    centro_treinamento := match up.centro_treinamento with
      | some v => .raw v
      | none => a.centro_treinamento }

/-- Replace the first row with the given id (the handler mutates in place the
object returned by `.first()`). -/
def replaceFirstAtleta (l : List AtletaModel) (id : Nat)
    (f : AtletaModel → AtletaModel) : List AtletaModel :=
  match l with
  | [] => []
  | a :: rest =>
    if a.id == id then f a :: rest else a :: replaceFirstAtleta rest id f

/-- `PATCH /atleta/{id}` (`update_atleta` in the controller): find the row by
id (404 naming the id when absent), apply the set-if-present loop, commit,
refresh, and return the validated record. -/
def update_atleta (db : DB) (id : Nat) (atleta_up : AtletaUpdate) :
    Except HTTPException (DB × AtletaOut) :=
  match db.atletas.find? (fun a => a.id == id) with
  | none =>
    .error { status_code := 404
             detail := "Atleta não encontrado com o ID: " ++ toString id }
  | some atleta =>
    let db2 : DB :=
      { db with atletas := replaceFirstAtleta db.atletas id (fun a => applyUpdate a atleta_up) }
    .ok (db2, AtletaOut.model_validate db2 (applyUpdate atleta atleta_up))

/-- The store after an update request: committed on success, rolled back
(hence unchanged) on any failure path. -/
def update_db (db : DB) (id : Nat) (atleta_up : AtletaUpdate) : DB :=
  match update_atleta db id atleta_up with
  | .ok (db2, _) => db2
  | .error _ => db

/-- Remove the first row with the given id (the handler deletes the object
returned by `.first()`). -/
def deleteFirstAtleta (l : List AtletaModel) (id : Nat) : List AtletaModel :=
  match l with
  | [] => []
  | a :: rest => if a.id == id then rest else a :: deleteFirstAtleta rest id

/-- `DELETE /atleta/{id}` (`delete_atleta` in the controller): find the row by
id (404 naming the id when absent), delete it, commit. -/
def delete_atleta (db : DB) (id : Nat) : Except HTTPException DB :=
  match db.atletas.find? (fun a => a.id == id) with
  | none =>
    .error { status_code := 404
             detail := "Atleta não encontrado com o ID: " ++ toString id }
  | some _ => .ok { db with atletas := deleteFirstAtleta db.atletas id }

/-- The store after a delete request: committed on success, rolled back (hence
unchanged) on any failure path. -/
def delete_db (db : DB) (id : Nat) : DB :=
  match delete_atleta db id with
  | .ok db2 => db2
  | .error _ => db

/-- The status code of a handler outcome, `none` when the handler succeeded. -/
def errStatus {α : Type} : Except HTTPException α → Option Nat
  | .error e => some e.status_code
  | .ok _ => none

/-- A JSON-like value, for serialised request/response bodies. -/
inductive Val where
  | str (s : String)
  | num (q : Rat)
  | nat (n : Nat)
  | obj (fields : List (String × Val))

/-- Pydantic's `model_dump()` on `AtletaOut`: the serialised response record,
as an association list from field names to values.  The field names are those
of `AtletaOut` (`id` and `creat_at` from `OutMixin` in
`WorkOutApi/contrib/schemas.py`; the rest modelled from the spec as in
`AtletaIn`). -/
def AtletaOut.model_dump (a : AtletaOut) : List (String × Val) :=
  [("id", .nat a.id),
   ("creat_at", .nat a.creat_at),
   ("nome", .str a.nome),
   ("cpf", .str a.cpf),
   ("peso", .num a.peso),
   ("altura", .num a.altura),
   ("sexo", .str a.sexo),
   ("categoria", .obj [("nome", .str a.categoria.nome)]),
   ("centro_treinamento", .obj [("nome", .str a.centro_treinamento.nome)])]

/-- The field names of a serialised `AtletaOut` record. -/
def AtletaOut.dumpKeys (a : AtletaOut) : List String :=
  a.model_dump.map Prod.fst

/-- The declared field names of the `AtletaIn` request schema. -/
def atletaInFields : List String :=
  ["nome", "cpf", "peso", "altura", "sexo", "categoria", "centro_treinamento"]

/-- The declared field names of the `AtletaUpdate` request schema. -/
def atletaUpdateFields : List String :=
  ["nome", "cpf", "peso", "altura", "sexo", "categoria", "centro_treinamento"]

/-- Does the request body carry a field name not declared in the schema?
`BaseSchemas.Config` sets `extra = 'forbid'` (`WorkOutApi/contrib/schemas.py`),
so such a body must be rejected. -/
def hasUnknownKey (declared : List String) (body : List (String × Val)) : Bool :=
  !body.all (fun kv => declared.contains kv.1)

/-- First value bound to a key in a serialised body. -/
def lookupVal (body : List (String × Val)) (k : String) : Option Val :=
  (body.find? (fun kv => kv.1 == k)).map (fun kv => kv.2)

/-- A required string field: present and a string. -/
def reqStr (body : List (String × Val)) (k : String) : Option String :=
  match lookupVal body k with
  | some (.str s) => some s
  | _ => none

/-- A required numeric field: present and a number. -/
def reqNum (body : List (String × Val)) (k : String) : Option Rat :=
  match lookupVal body k with
  | some (.num q) => some q
  | _ => none

/-- An optional string field: `none` when absent, fails on a non-string. -/
def optStr (body : List (String × Val)) (k : String) : Option (Option String) :=
  match lookupVal body k with
  | none => some none
  | some (.str s) => some (some s)
  | some _ => none

/-- An optional numeric field: `none` when absent, fails on a non-number. -/
def optNum (body : List (String × Val)) (k : String) : Option (Option Rat) :=
  match lookupVal body k with
  | none => some none
  | some (.num q) => some (some q)
  | some _ => none

/-- Parse a nested category object: only the declared `nome` field is allowed
(`extra = 'forbid'`), and it is required. -/
def parseCategoriaIn (v : Val) : Option CategoriaIn :=
  match v with
  | .obj l =>
    if hasUnknownKey ["nome"] l then none
    else match reqStr l "nome" with
      | some s => some ⟨s⟩
      | none => none
  | _ => none

/-- Parse a nested training-center object; see `parseCategoriaIn`. -/
def parseCentroIn (v : Val) : Option CentroTreinamentoIn :=
  match v with
  | .obj l =>
    if hasUnknownKey ["nome"] l then none
    else match reqStr l "nome" with
      | some s => some ⟨s⟩
      | none => none
  | _ => none

/-- Modelled from the spec: the framework's validation of a create body into
`AtletaIn` before the handler runs ("reject malformed input before the service
logic runs").  A body with a field name not declared in the schema is rejected
(`extra = 'forbid'` in `BaseSchemas.Config`); all declared fields are
required. -/
def validateAtletaIn (body : List (String × Val)) : Option AtletaIn :=
  if hasUnknownKey atletaInFields body then none
  else
    match reqStr body "nome", reqStr body "cpf", reqNum body "peso",
        reqNum body "altura", reqStr body "sexo",
        (lookupVal body "categoria").bind parseCategoriaIn,
        (lookupVal body "centro_treinamento").bind parseCentroIn with
    | some nome, some cpf, some peso, some altura, some sexo, some cat, some ct =>
      some { nome := nome, cpf := cpf, peso := peso, altura := altura,
             sexo := sexo, categoria := cat, centro_treinamento := ct }
    | _, _, _, _, _, _, _ => none

/-- Modelled from the spec: the framework's validation of a partial-update
body into `AtletaUpdate`.  A body with a field name not declared in the schema
is rejected (`extra = 'forbid'`); declared fields are optional and unset when
absent. -/
def validateAtletaUpdate (body : List (String × Val)) : Option AtletaUpdate :=
  if hasUnknownKey atletaUpdateFields body then none
  else
    match optStr body "nome", optStr body "cpf", optNum body "peso",
        optNum body "altura", optStr body "sexo" with
    | some nome, some cpf, some peso, some altura, some sexo =>
      match lookupVal body "categoria", lookupVal body "centro_treinamento" with
      | none, none =>
        some { nome := nome, cpf := cpf, peso := peso, altura := altura,
               sexo := sexo, categoria := none, centro_treinamento := none }
      | some cv, none =>
        (parseCategoriaIn cv).map (fun cat =>
          { nome := nome, cpf := cpf, peso := peso, altura := altura,
            sexo := sexo, categoria := some cat, centro_treinamento := none })
      | none, some tv =>
        (parseCentroIn tv).map (fun ct =>
          { nome := nome, cpf := cpf, peso := peso, altura := altura,
            sexo := sexo, categoria := none, centro_treinamento := some ct })
      | some cv, some tv =>
        (parseCategoriaIn cv).bind (fun cat =>
          (parseCentroIn tv).map (fun ct =>
            { nome := nome, cpf := cpf, peso := peso, altura := altura,
              sexo := sexo, categoria := some cat, centro_treinamento := some ct }))
    | _, _, _, _, _ => none

/-- The create endpoint including the framework's validation step: a body that
fails schema validation is rejected with a 422 before `post` runs. -/
def post_endpoint (db : DB) (fresh_id now : Nat) (body : List (String × Val)) :
    Except HTTPException (DB × AtletaOut) :=
  match validateAtletaIn body with
  | none => .error { status_code := 422, detail := "Unprocessable Entity" }
  | some atleta_in => post db fresh_id now atleta_in

/-- The update endpoint including the framework's validation step: a body that
fails schema validation is rejected with a 422 before `update_atleta` runs. -/
def update_endpoint (db : DB) (id : Nat) (body : List (String × Val)) :
    Except HTTPException (DB × AtletaOut) :=
  match validateAtletaUpdate body with
  | none => .error { status_code := 422, detail := "Unprocessable Entity" }
  | some atleta_up => update_atleta db id atleta_up

/-- Spec-side definition, following the spec's words: does the needle occur as
a contiguous sublist of the haystack?  (Used, after lowercasing, for "match
athletes whose name contains it, case-insensitively, as a substring anywhere
in the field".) -/
def containsSub (needle : List Char) : List Char → Bool
  | [] => needle.isEmpty
  | c :: t => needle.isPrefixOf (c :: t) || containsSub needle t

/-- Spec-side definition: case-insensitive substring containment of `needle`
in `hay`. -/
def containsCI (hay needle : String) : Bool :=
  containsSub (needle.data.map Char.toLower) (hay.data.map Char.toLower)

/-- Spec-side definition for claim C5, following the spec's words literally:
a present name filter selects case-insensitive substring containment, a
present cpf filter selects exact equality, both combine as a conjunction, and
an absent filter imposes no restriction. -/
def claimMatch (nome cpf : Option String) (a : AtletaModel) : Bool :=
  (match nome with
   | some n => containsCI a.nome n
   | none => true)
  &&
  (match cpf with
   | some c => a.cpf == c
   | none => true)

/-- Spec-side definition for the amended claim C5: as `claimMatch`, except
that a present-but-empty filter imposes no restriction (the handlers'
truthiness test). -/
def claimMatchAmended (nome cpf : Option String) (a : AtletaModel) : Bool :=
  (match nome with
   | some n => if n = "" then true else containsCI a.nome n
   | none => true)
  &&
  (match cpf with
   | some c => if c = "" then true else a.cpf == c
   | none => true)

/-- An (absent or present) name filter free of the SQL wildcard characters `%`
and `_`. -/
def noWildcards : Option String → Bool
  | none => true
  | some n => n.data.all (fun c => !(c == '%') && !(c == '_'))

lemma likeMatch_pct_all : ∀ s : List Char, likeMatch ['%'] s = true := by
  intro s
  induction s with
  | nil => simp [likeMatch]
  | cons c t ih => simp [likeMatch, ih]

lemma isPrefixOf_nil_right (n : List Char) : n.isPrefixOf [] = n.isEmpty := by
  cases n <;> rfl

lemma likeMatch_lit_pct (lit : List Char)
    (hw : lit.all (fun c => !(c == '%') && !(c == '_')) = true) :
    ∀ s : List Char,
      likeMatch (lit ++ ['%']) s =
        (lit.map Char.toLower).isPrefixOf (s.map Char.toLower) := by
  induction lit with
  | nil =>
    intro s
    simpa using likeMatch_pct_all s
  | cons c cs ih =>
    rw [List.all_cons, Bool.and_eq_true] at hw
    have hcs : cs.all (fun c => !(c == '%') && !(c == '_')) = true := hw.2
    have hc1 : ¬(c = '%') := by
      intro hcc
      subst hcc
      have := hw.1
      simp at this
    have hc2 : ¬(c = '_') := by
      intro hcc
      subst hcc
      have := hw.1
      simp at this
    intro s
    cases s with
    | nil =>
      simp [likeMatch, List.isPrefixOf, hc1]
    | cons d t =>
      have ih2 := ih hcs t
      simp [likeMatch, List.isPrefixOf, hc1, hc2, ih2]

lemma likeMatch_pct_lit_pct (lit : List Char)
    (hw : lit.all (fun c => !(c == '%') && !(c == '_')) = true) :
    ∀ s : List Char,
      likeMatch ('%' :: (lit ++ ['%'])) s =
        containsSub (lit.map Char.toLower) (s.map Char.toLower) := by
  intro s
  induction s with
  | nil =>
    have h1 := likeMatch_lit_pct lit hw []
    simp [likeMatch, containsSub, isPrefixOf_nil_right] at h1 ⊢
    simpa using h1
  | cons c t ih =>
    have h1 := likeMatch_lit_pct lit hw (c :: t)
    simp [likeMatch, containsSub, h1, ih]

/-- The list handler's `ilike(f"%{nome}%")` coincides with case-insensitive
substring containment whenever the filter contains no SQL wildcard
character. -/
lemma ilike_eq_containsCI (n : String)
    (hw : n.data.all (fun c => !(c == '%') && !(c == '_')) = true)
    (hay : String) :
    likeMatch (ilikePattern n) hay.data = containsCI hay n := by
  have := likeMatch_pct_lit_pct n.data hw hay.data
  simpa [ilikePattern, containsCI] using this

lemma replaceFirst_of_find? (f : AtletaModel → AtletaModel) :
    ∀ (l : List AtletaModel) (id : Nat) (a : AtletaModel),
      l.find? (fun r => r.id == id) = some a →
      ∃ l1 l2, l = l1 ++ a :: l2 ∧ (∀ r ∈ l1, r.id ≠ id) ∧ a.id = id ∧
        replaceFirstAtleta l id f = l1 ++ f a :: l2 := by
  intro l
  induction l with
  | nil => intro id a h; simp at h
  | cons x xs ih =>
    intro id a h
    cases hx : (x.id == id) with
    | true =>
      simp only [List.find?, hx] at h
      injection h with h
      subst h
      exact ⟨[], xs, by simp, by simp, by simpa using hx,
        by simp [replaceFirstAtleta, hx]⟩
    | false =>
      simp only [List.find?, hx] at h
      obtain ⟨l1, l2, hl, hnot, hid, hrep⟩ := ih id a h
      refine ⟨x :: l1, l2, by simp [hl], ?_, hid, ?_⟩
      · intro r hr
        rcases List.mem_cons.mp hr with hrx | hr2
        · subst hrx
          simpa using hx
        · exact hnot r hr2
      · simp [replaceFirstAtleta, hx, hrep]

lemma post_ok_elim (db : DB) (f n : Nat) (a : AtletaIn) (db1 : DB) (out : AtletaOut)
    (h : post db f n a = .ok (db1, out)) :
    db1.categorias = db.categorias ∧ db1.centros = db.centros ∧
    db.atletas.any (fun r => r.cpf == a.cpf) = false ∧
    out = { id := f, creat_at := n, nome := a.nome, cpf := a.cpf, peso := a.peso,
            altura := a.altura, sexo := a.sexo, categoria := a.categoria,
            centro_treinamento := a.centro_treinamento } ∧
    ∃ cpk tpk, db1.atletas = db.atletas ++
      [{ id := f, creat_at := n, nome := a.nome, cpf := a.cpf, peso := a.peso,
         altura := a.altura, sexo := a.sexo, categoria := .fk cpk,
         centro_treinamento := .fk tpk }] := by
  unfold post at h
  split at h
  · exact absurd h (by simp)
  · next categoria hcat =>
    split at h
    · exact absurd h (by simp)
    · next centro hct =>
      split at h
      · exact absurd h (by simp)
      · next hdup =>
        simp only [Except.ok.injEq, Prod.mk.injEq] at h
        obtain ⟨hdb, hout⟩ := h
        subst hdb
        exact ⟨rfl, rfl, by simpa using hdup, hout.symm,
          categoria.pk_id, centro.pk_id, rfl⟩

/-- Sample reference rows and athletes for concrete witnesses. -/
def catScale : CategoriaModel := { pk_id := 1, nome := "Scale" }

def ctKing : CentroTreinamentoModel := { pk_id := 1, nome := "CT King" }

def anaIn : AtletaIn :=
  { nome := "Ana", cpf := "12345678900", peso := 70, altura := 17/10, sexo := "F",
    categoria := { nome := "Scale" }, centro_treinamento := { nome := "CT King" } }

def dbEmpty : DB := { categorias := [catScale], centros := [ctKing], atletas := [] }

def anaRow : AtletaModel :=
  { id := 1, creat_at := 5, nome := "Ana", cpf := "12345678900", peso := 70,
    altura := 17/10, sexo := "F", categoria := .fk 1, centro_treinamento := .fk 1 }

def dbAna : DB := { categorias := [catScale], centros := [ctKing], atletas := [anaRow] }

def anaOut : AtletaOut :=
  { id := 1, creat_at := 5, nome := "Ana", cpf := "12345678900", peso := 70,
    altura := 17/10, sexo := "F", categoria := { nome := "Scale" },
    centro_treinamento := { nome := "CT King" } }


def badCatIn : AtletaIn := { anaIn with categoria := { nome := "inexistente" } }

/-- C2: a create request whose category name or training-center name is absent
from the reference tables fails with a 400 naming the missing value, the
category lookup happening before the training-center lookup, and no athlete
row is inserted. -/
theorem post_reference_not_found (db : DB) (f n : Nat) (a : AtletaIn)
    (h : db.categorias.find? (fun c => c.nome == a.categoria.nome) = none ∨
         db.centros.find? (fun c => c.nome == a.centro_treinamento.nome) = none) :
    (∃ e, post db f n a = .error e ∧ e.status_code = 400) ∧
    (db.categorias.find? (fun c => c.nome == a.categoria.nome) = none →
      post db f n a =
        .error { status_code := 400
                 detail := "Categoria '" ++ a.categoria.nome ++ "' não encontrada" }) ∧
    (∀ categoria,
      db.categorias.find? (fun c => c.nome == a.categoria.nome) = some categoria →
      db.centros.find? (fun c => c.nome == a.centro_treinamento.nome) = none →
      post db f n a =
        .error { status_code := 400
                 detail := "Centro de Treinamento '" ++ a.centro_treinamento.nome
                             ++ "' não encontrado" }) ∧
    post_db db f n a = db := by
  cases hc : db.categorias.find? (fun c => c.nome == a.categoria.nome) with
  | none =>
    have hpost : post db f n a =
        .error { status_code := 400
                 detail := "Categoria '" ++ a.categoria.nome ++ "' não encontrada" } := by
      unfold post
      rw [hc]
    refine ⟨⟨_, hpost, rfl⟩, fun _ => hpost, ?_, ?_⟩
    · intro categoria hc2 _
      exact absurd hc2 (by simp)
    · unfold post_db
      rw [hpost]
  | some categoria =>
    have hct : db.centros.find? (fun c => c.nome == a.centro_treinamento.nome) = none := by
      rcases h with h1 | h2
      · rw [hc] at h1
        exact absurd h1 (by simp)
      · exact h2
    have hpost : post db f n a =
        .error { status_code := 400
                 detail := "Centro de Treinamento '" ++ a.centro_treinamento.nome
                             ++ "' não encontrado" } := by
      unfold post
      rw [hc, hct]
    refine ⟨⟨_, hpost, rfl⟩, ?_, fun _ _ _ => hpost, ?_⟩
    · intro hcn
      exact absurd hcn (by simp)
    · unfold post_db
      rw [hpost]

/-- Witness for C2 at a concrete input: category name `inexistente` is absent,
the request fails with a 400 naming it, and the store is unchanged. -/
theorem post_reference_not_found_witness :
    (∃ e, post dbEmpty 2 6 badCatIn = .error e ∧ e.status_code = 400) ∧
    (dbEmpty.categorias.find? (fun c => c.nome == badCatIn.categoria.nome) = none →
      post dbEmpty 2 6 badCatIn =
        .error { status_code := 400
                 detail := "Categoria '" ++ badCatIn.categoria.nome ++ "' não encontrada" }) ∧
    (∀ categoria,
      dbEmpty.categorias.find? (fun c => c.nome == badCatIn.categoria.nome) = some categoria →
      dbEmpty.centros.find? (fun c => c.nome == badCatIn.centro_treinamento.nome) = none →
      post dbEmpty 2 6 badCatIn =
        .error { status_code := 400
                 detail := "Centro de Treinamento '" ++ badCatIn.centro_treinamento.nome
                             ++ "' não encontrado" }) ∧
    post_db dbEmpty 2 6 badCatIn = dbEmpty :=
  post_reference_not_found dbEmpty 2 6 badCatIn (Or.inl rfl)

/-- C6: get, update and delete on an id bound to no athlete each fail with a
404 naming the id, and the stored set of athletes is unchanged. -/
theorem not_found_404 (db : DB) (id : Nat) (up : AtletaUpdate)
    (h : ∀ r ∈ db.atletas, r.id ≠ id) :
    query_atleta_by_id db id =
      .error { status_code := 404
               detail := "Atleta não encontrado com o ID: " ++ toString id } ∧
    update_atleta db id up =
      .error { status_code := 404
               detail := "Atleta não encontrado com o ID: " ++ toString id } ∧
    delete_atleta db id =
      .error { status_code := 404
               detail := "Atleta não encontrado com o ID: " ++ toString id } ∧
    update_db db id up = db ∧
    delete_db db id = db := by
  have hf : db.atletas.find? (fun r => r.id == id) = none :=
    List.find?_eq_none.mpr (fun r hr => by simpa using h r hr)
  refine ⟨?_, ?_, ?_, ?_, ?_⟩ <;>
    simp [query_atleta_by_id, update_atleta, delete_atleta, update_db, delete_db, hf]

/-- Witness for C6 at a concrete input: id 99 is bound to no athlete in
`dbAna`. -/
theorem not_found_404_witness :
    query_atleta_by_id dbAna 99 =
      .error { status_code := 404
               detail := "Atleta não encontrado com o ID: " ++ toString 99 } ∧
    update_atleta dbAna 99 {} =
      .error { status_code := 404
               detail := "Atleta não encontrado com o ID: " ++ toString 99 } ∧
    delete_atleta dbAna 99 =
      .error { status_code := 404
               detail := "Atleta não encontrado com o ID: " ++ toString 99 } ∧
    update_db dbAna 99 {} = dbAna ∧
    delete_db dbAna 99 = dbAna :=
  not_found_404 dbAna 99 {} (by decide)

/-- C9: an empty-string name or cpf filter behaves exactly as an absent
filter; with both filters empty every athlete is returned. -/
theorem empty_filters_ignored (db : DB) :
    (∀ cpf, query_all_atletas db (some "") cpf = query_all_atletas db none cpf) ∧
    (∀ nome, query_all_atletas db nome (some "") = query_all_atletas db nome none) ∧
    query_all_atletas db (some "") (some "") = db.atletas.map (AtletaOut.model_validate db) := by
  refine ⟨fun cpf => ?_, fun nome => ?_, ?_⟩ <;> simp [query_all_atletas]

/-- C10: a request body carrying a field name not declared in the schema is
rejected by validation (`extra = 'forbid'`) before the create or update
handler logic runs, for any store and id. -/
theorem extra_fields_rejected (db : DB) (f n id : Nat)
    (body1 body2 : List (String × Val))
    (h1 : hasUnknownKey atletaInFields body1 = true)
    (h2 : hasUnknownKey atletaUpdateFields body2 = true) :
    post_endpoint db f n body1 =
      .error { status_code := 422, detail := "Unprocessable Entity" } ∧
    update_endpoint db id body2 =
      .error { status_code := 422, detail := "Unprocessable Entity" } := by
  constructor
  · simp [post_endpoint, validateAtletaIn, h1]
  · simp [update_endpoint, validateAtletaUpdate, h2]

/-- Witness for C10 at a concrete input: a body with the undeclared field
`idade` is rejected by both endpoints even though athlete 1 exists. -/
theorem extra_fields_rejected_witness :
    post_endpoint dbAna 2 6 [("idade", Val.nat 25)] =
      .error { status_code := 422, detail := "Unprocessable Entity" } ∧
    update_endpoint dbAna 1 [("idade", Val.nat 25)] =
      .error { status_code := 422, detail := "Unprocessable Entity" } :=
  extra_fields_rejected dbAna 2 6 1 [("idade", Val.nat 25)] [("idade", Val.nat 25)] rfl rfl

/-- C8 (amended): every `AtletaOut` response record serialises exactly the
fields id, creat_at, nome, cpf, peso, altura, sexo, categoria and
centro_treinamento; the creation timestamp is exposed as `creat_at`, and no
field named `created_at` exists. -/
theorem atleta_out_field_names (a : AtletaOut) :
    a.dumpKeys =
      ["id", "creat_at", "nome", "cpf", "peso", "altura", "sexo",
       "categoria", "centro_treinamento"] ∧
    "creat_at" ∈ a.dumpKeys ∧ "created_at" ∉ a.dumpKeys := by
  refine ⟨rfl, ?_, ?_⟩ <;> simp [AtletaOut.dumpKeys, AtletaOut.model_dump]

/-- Counterexample for C8 as stated: a concrete response record exposes the
creation timestamp under `creat_at` and has no `created_at` field. -/
theorem created_at_absent_cex :
    "creat_at" ∈ anaOut.dumpKeys ∧ "created_at" ∉ anaOut.dumpKeys := by
  constructor <;> decide

def biaIn : AtletaIn :=
  { nome := "Bia", cpf := "12345678900", peso := 60, altura := 16/10, sexo := "F",
    categoria := { nome := "Scale" }, centro_treinamento := { nome := "CT King" } }

def biaBadCatIn : AtletaIn := { biaIn with categoria := { nome := "zz" } }

/-- Counterexample for C1 as stated: after a successful create, a second
create request carrying the same cpf but an unresolvable category name fails
with a 400 (ReferenceNotFound), not with the claimed 303 (DuplicateKey). -/
theorem duplicate_cpf_cex :
    errStatus (post dbEmpty 1 5 anaIn) = none ∧
    biaBadCatIn.cpf = anaIn.cpf ∧
    errStatus (post (post_db dbEmpty 1 5 anaIn) 2 6 biaBadCatIn) = some 400 :=
  ⟨rfl, rfl, rfl⟩

/-- C1 (amended): if a create succeeds and a second create request carries the
same cpf and category/training-center names that resolve, the second attempt
fails with a 303 naming the cpf, and exactly one persisted athlete has that
cpf. -/
theorem duplicate_cpf_303 (db db1 : DB) (f1 n1 f2 n2 : Nat) (a1 a2 : AtletaIn)
    (out1 : AtletaOut)
    (h1 : post db f1 n1 a1 = .ok (db1, out1))
    (hcpf : a2.cpf = a1.cpf)
    (hcat : (db1.categorias.find? (fun c => c.nome == a2.categoria.nome)).isSome = true)
    (hct : (db1.centros.find? (fun c => c.nome == a2.centro_treinamento.nome)).isSome = true) :
    post db1 f2 n2 a2 =
      .error { status_code := 303
               detail := "Já existe um atleta cadastrado com o CPF: " ++ a2.cpf } ∧
    (db1.atletas.filter (fun r => r.cpf == a2.cpf)).length = 1 := by
  obtain ⟨hcats, hctrs, hnodup, hout, cpk, tpk, hrows⟩ := post_ok_elim db f1 n1 a1 db1 out1 h1
  obtain ⟨categoria, hcat2⟩ := Option.isSome_iff_exists.mp hcat
  obtain ⟨centro, hct2⟩ := Option.isSome_iff_exists.mp hct
  have hdup : db1.atletas.any (fun r => r.cpf == a2.cpf) = true := by
    rw [hrows]
    simp [hcpf]
  constructor
  · simp only [post, hcat2, hct2, hdup, if_true]
  · rw [hrows, List.filter_append]
    have hfilter : db.atletas.filter (fun r => r.cpf == a2.cpf) = [] := by
      rw [List.filter_eq_nil_iff]
      intro r hr
      have := (List.any_eq_false.mp hnodup) r hr
      simpa [hcpf] using this
    rw [hfilter]
    simp [hcpf]

/-- Witness for C1 (amended) at a concrete input: after creating Ana, creating
Bia with the same cpf fails with a 303 naming the cpf, and exactly one stored
athlete has it. -/
theorem duplicate_cpf_303_witness :
    post dbAna 2 6 biaIn =
      .error { status_code := 303
               detail := "Já existe um atleta cadastrado com o CPF: " ++ biaIn.cpf } ∧
    (dbAna.atletas.filter (fun r => r.cpf == biaIn.cpf)).length = 1 :=
  duplicate_cpf_303 dbEmpty dbAna 1 5 2 6 anaIn biaIn anaOut rfl rfl rfl rfl

def upBadCat : AtletaUpdate := { categoria := some { nome := "naoexiste" } }

def anaRowBad : AtletaModel := { anaRow with categoria := .raw { nome := "naoexiste" } }

def dbAnaBad : DB := { dbAna with atletas := [anaRowBad] }

def outBad : AtletaOut := { anaOut with categoria := { nome := "naoexiste" } }

/-- Counterexample for C3 as stated: a partial update carrying a category name
absent from the reference table does not fail with ReferenceNotFound — it
succeeds, and the supplied value is set directly onto the stored record. -/
theorem update_no_resolution_cex :
    errStatus (update_atleta dbAna 1 upBadCat) = none ∧
    (update_db dbAna 1 upBadCat).atletas =
      [{ anaRow with categoria := .raw { nome := "naoexiste" } }] :=
  ⟨rfl, rfl⟩

def upBadCt : AtletaUpdate := { centro_treinamento := some { nome := "ctfantasma" } }

def anaRowBadCt : AtletaModel :=
  { anaRow with centro_treinamento := .raw { nome := "ctfantasma" } }

def dbAnaBadCt : DB := { dbAna with atletas := [anaRowBadCt] }

def outBadCt : AtletaOut := { anaOut with centro_treinamento := { nome := "ctfantasma" } }

/-- C3 (amended): the update handler never re-runs foreign-key resolution: its
only failure is the 404 for a missing id, and a supplied category or
training-center value is assigned raw onto the stored record (and echoed in
the response), whether or not the name resolves. -/
theorem update_applies_raw_values :
    (∀ db id up e, update_atleta db id up = .error e → e.status_code = 404) ∧
    (∀ db id up v db2 out, up.categoria = some v →
      update_atleta db id up = .ok (db2, out) →
      out.categoria = v ∧
      ∃ r ∈ db2.atletas, r.id = id ∧ r.categoria = CategoriaAttr.raw v) ∧
    (∀ db id up w db2 out, up.centro_treinamento = some w →
      update_atleta db id up = .ok (db2, out) →
      out.centro_treinamento = w ∧
      ∃ r ∈ db2.atletas, r.id = id ∧
        r.centro_treinamento = CentroTreinamentoAttr.raw w) := by
  refine ⟨?_, ?_, ?_⟩
  · intro db id up e h
    unfold update_atleta at h
    split at h
    · injection h with h
      subst h
      rfl
    · exact absurd h (by simp)
  · intro db id up v db2 out hv h
    unfold update_atleta at h
    split at h
    · exact absurd h (by simp)
    · next atleta hfind =>
      simp only [Except.ok.injEq, Prod.mk.injEq] at h
      obtain ⟨hdb, hout⟩ := h
      subst hdb
      obtain ⟨l1, l2, hl, hnot, hid, hrep⟩ :=
        replaceFirst_of_find? (fun a => applyUpdate a up) db.atletas id atleta hfind
      refine ⟨?_, applyUpdate atleta up, ?_, ?_, ?_⟩
      · rw [← hout]
        simp [AtletaOut.model_validate, applyUpdate, hv, resolveCategoria]
      · dsimp only
        rw [hrep]
        simp
      · simp [applyUpdate, hid]
      · simp [applyUpdate, hv]
  · intro db id up w db2 out hw h
    unfold update_atleta at h
    split at h
    · exact absurd h (by simp)
    · next atleta hfind =>
      simp only [Except.ok.injEq, Prod.mk.injEq] at h
      obtain ⟨hdb, hout⟩ := h
      subst hdb
      obtain ⟨l1, l2, hl, hnot, hid, hrep⟩ :=
        replaceFirst_of_find? (fun a => applyUpdate a up) db.atletas id atleta hfind
      refine ⟨?_, applyUpdate atleta up, ?_, ?_, ?_⟩
      · rw [← hout]
        simp [AtletaOut.model_validate, applyUpdate, hw, resolveCentro]
      · dsimp only
        rw [hrep]
        simp
      · simp [applyUpdate, hid]
      · simp [applyUpdate, hw]

/-- Witness for C3 (amended) at concrete inputs: updating Ana with the
unresolvable category name `naoexiste` stores and echoes the raw value, the
same happens for the unresolvable training-center name `ctfantasma`, and a
404 is the only error the update handler produces. -/
theorem update_applies_raw_values_witness :
    (outBad.categoria = ({ nome := "naoexiste" } : CategoriaIn) ∧
      ∃ r ∈ dbAnaBad.atletas, r.id = 1 ∧
        r.categoria = CategoriaAttr.raw { nome := "naoexiste" }) ∧
    (outBadCt.centro_treinamento = ({ nome := "ctfantasma" } : CentroTreinamentoIn) ∧
      ∃ r ∈ dbAnaBadCt.atletas, r.id = 1 ∧
        r.centro_treinamento = CentroTreinamentoAttr.raw { nome := "ctfantasma" }) ∧
    ({ status_code := 404
       detail := "Atleta não encontrado com o ID: " ++ toString 99 } : HTTPException).status_code
      = 404 :=
  ⟨update_applies_raw_values.2.1 dbAna 1 upBadCat { nome := "naoexiste" } dbAnaBad outBad
     rfl rfl,
   update_applies_raw_values.2.2 dbAna 1 upBadCt { nome := "ctfantasma" } dbAnaBadCt outBadCt
     rfl rfl,
   update_applies_raw_values.1 dbAna 99 {}
     { status_code := 404, detail := "Atleta não encontrado com o ID: " ++ toString 99 } rfl⟩

/-- C4: a successful partial update changes exactly the fields explicitly
present in the request on the addressed row — each supplied field takes the
supplied value, each omitted field keeps its prior value, and `id` and
`creat_at` always keep their prior values — and every other row and both
reference tables are unchanged. -/
theorem update_set_if_present (db : DB) (id : Nat) (up : AtletaUpdate)
    (db2 : DB) (out : AtletaOut)
    (h : update_atleta db id up = .ok (db2, out)) :
    db2.categorias = db.categorias ∧ db2.centros = db.centros ∧
    ∃ a l1 l2, db.atletas = l1 ++ a :: l2 ∧ (∀ r ∈ l1, r.id ≠ id) ∧ a.id = id ∧
      db2.atletas = l1 ++
        ({ id := a.id
           creat_at := a.creat_at
           nome := up.nome.getD a.nome
           cpf := up.cpf.getD a.cpf
           peso := up.peso.getD a.peso
           altura := up.altura.getD a.altura
           sexo := up.sexo.getD a.sexo
           categoria := match up.categoria with
             | some v => .raw v
             | none => a.categoria
           centro_treinamento := match up.centro_treinamento with
             | some v => .raw v
             | none => a.centro_treinamento } : AtletaModel) :: l2 := by
  unfold update_atleta at h
  split at h
  · exact absurd h (by simp)
  · next atleta hfind =>
    simp only [Except.ok.injEq, Prod.mk.injEq] at h
    obtain ⟨hdb, hout⟩ := h
    subst hdb
    obtain ⟨l1, l2, hl, hnot, hid, hrep⟩ :=
      replaceFirst_of_find? (fun a => applyUpdate a up) db.atletas id atleta hfind
    refine ⟨rfl, rfl, atleta, l1, l2, hl, hnot, hid, ?_⟩
    dsimp only
    rw [hrep]
    rfl

def pesoUpd : AtletaUpdate := { peso := some (161/2) }

def anaRow80 : AtletaModel := { anaRow with peso := 161/2 }

def dbAna80 : DB := { dbAna with atletas := [anaRow80] }

def anaOut80 : AtletaOut := { anaOut with peso := 161/2 }

/-- Witness for C4 at a concrete input: updating Ana with only a weight of
80.5 changes only the weight; id, creation timestamp and every other field
keep their prior values. -/
theorem update_set_if_present_witness :
    dbAna80.categorias = dbAna.categorias ∧ dbAna80.centros = dbAna.centros ∧
    ∃ a l1 l2, dbAna.atletas = l1 ++ a :: l2 ∧ (∀ r ∈ l1, r.id ≠ 1) ∧ a.id = 1 ∧
      dbAna80.atletas = l1 ++
        ({ id := a.id
           creat_at := a.creat_at
           nome := pesoUpd.nome.getD a.nome
           cpf := pesoUpd.cpf.getD a.cpf
           peso := pesoUpd.peso.getD a.peso
           altura := pesoUpd.altura.getD a.altura
           sexo := pesoUpd.sexo.getD a.sexo
           categoria := match pesoUpd.categoria with
             | some v => .raw v
             | none => a.categoria
           centro_treinamento := match pesoUpd.centro_treinamento with
             | some v => .raw v
             | none => a.centro_treinamento } : AtletaModel) :: l2 :=
  update_set_if_present dbAna 1 pesoUpd dbAna80 anaOut80 rfl

/-- C7: immediately after a successful create (with a fresh id), fetching the
returned id yields a record equal to the one create returned on every field
except the intentionally re-shaped category and training-center
sub-objects. -/
theorem get_after_create (db db1 : DB) (f n : Nat) (a : AtletaIn) (out : AtletaOut)
    (h : post db f n a = .ok (db1, out))
    (hfresh : ∀ r ∈ db.atletas, r.id ≠ f) :
    ∃ out2, query_atleta_by_id db1 out.id = .ok out2 ∧
      out2.id = out.id ∧ out2.creat_at = out.creat_at ∧ out2.nome = out.nome ∧
      out2.cpf = out.cpf ∧ out2.peso = out.peso ∧ out2.altura = out.altura ∧
      out2.sexo = out.sexo := by
  obtain ⟨hcats, hctrs, hnodup, hout, cpk, tpk, hrows⟩ := post_ok_elim db f n a db1 out h
  have hnone : db.atletas.find? (fun r => r.id == f) = none :=
    List.find?_eq_none.mpr (fun r hr => by simpa using hfresh r hr)
  have hfind : db1.atletas.find? (fun r => r.id == f) =
      some { id := f, creat_at := n, nome := a.nome, cpf := a.cpf, peso := a.peso,
             altura := a.altura, sexo := a.sexo, categoria := .fk cpk,
             centro_treinamento := .fk tpk } := by
    rw [hrows, List.find?_append, hnone]
    simp [List.find?]
  have hq : query_atleta_by_id db1 f = .ok (AtletaOut.model_validate db1
      { id := f, creat_at := n, nome := a.nome, cpf := a.cpf, peso := a.peso,
        altura := a.altura, sexo := a.sexo, categoria := .fk cpk,
        centro_treinamento := .fk tpk }) := by
    unfold query_atleta_by_id
    rw [hfind]
  subst hout
  exact ⟨_, hq, rfl, rfl, rfl, rfl, rfl, rfl, rfl⟩

/-- Witness for C7 at a concrete input: fetching Ana right after creating her
returns the same record on every non-re-shaped field. -/
theorem get_after_create_witness :
    ∃ out2, query_atleta_by_id dbAna anaOut.id = .ok out2 ∧
      out2.id = anaOut.id ∧ out2.creat_at = anaOut.creat_at ∧ out2.nome = anaOut.nome ∧
      out2.cpf = anaOut.cpf ∧ out2.peso = anaOut.peso ∧ out2.altura = anaOut.altura ∧
      out2.sexo = anaOut.sexo :=
  get_after_create dbEmpty dbAna 1 5 anaIn anaOut rfl (by simp [dbEmpty])

/-- Counterexample for C5 as stated: with one stored athlete (cpf
`12345678900`) and a present-but-empty cpf filter, the handler returns the
athlete (the empty filter is skipped), while the claimed semantics — cpf
equal to the filter exactly — returns nothing. -/
theorem list_filter_cex :
    (query_all_atletas dbAna none (some "")).length = 1 ∧
    ((dbAna.atletas.filter (claimMatch none (some ""))).map
      (AtletaOut.model_validate dbAna)).length = 0 :=
  ⟨rfl, rfl⟩

/-- C5 (amended): for every store and every pair of optional filters, provided
the name filter contains no SQL wildcard character, the list handler returns
exactly the athletes matching: a present-but-empty filter imposes no
restriction; a present nonempty name filter selects case-insensitive substring
containment; a present nonempty cpf filter selects exact equality; both
combine as a conjunction, and with no filters all athletes are returned. -/
theorem list_filter_semantics (db : DB) (nome cpf : Option String)
    (h : noWildcards nome = true) :
    query_all_atletas db nome cpf =
      (db.atletas.filter (claimMatchAmended nome cpf)).map
        (AtletaOut.model_validate db) := by
  unfold query_all_atletas
  congr 1
  apply List.filter_congr
  intro a _
  unfold claimMatchAmended
  congr 1
  cases nome with
  | none => rfl
  | some n =>
    by_cases hn : n = ""
    · simp [hn]
    · simp only [if_neg hn]
      exact ilike_eq_containsCI n (by simpa [noWildcards] using h) a.nome

/-- Witness for C5 (amended) at a concrete input: the wildcard-free filter
`ana` selects exactly the stored athletes whose name contains it
case-insensitively. -/
theorem list_filter_semantics_witness :
    query_all_atletas dbAna (some "ana") none =
      (dbAna.atletas.filter (claimMatchAmended (some "ana") none)).map
        (AtletaOut.model_validate dbAna) :=
  list_filter_semantics dbAna (some "ana") none rfl
